import Mathlib

/-!
A shallow embedding of the predicguard trading pipeline.

Conventions of the embedding:
* JavaScript `number` values are modelled as exact rationals (`Rat`);
  `bigint` values are modelled as `Int`, with `Int.tdiv` for the
  truncating (toward zero) `bigint` division.
* `Date.now()` is modelled by an explicit `now : Int` parameter.
* Throwing code is modelled with `Except String`.
* Mutable objects are modelled by explicit state passing; JS `Map`s are
  modelled as association lists preserving insertion order.
* Audit writes are recorded as the list of event-type strings appended to
  the ledger during a call (the structured payloads of the entries are
  elided; an entry is identified here by its event type).
* Dynamic parts of human-readable message strings (number formatting via
  `toFixed`) are elided; the fixed message prefixes are kept.
-/

/-- Lookup in an association list (JS `Map.get`, `undefined` as `none`). -/
def assocGet {α : Type} (m : List (String × α)) (k : String) : Option α :=
  match m with
  | [] => none
  | p :: rest => if p.1 = k then some p.2 else assocGet rest k

/-- Lookup in an association list (JS `Map.get` with a default). -/
def assocGetD {α : Type} (m : List (String × α)) (k : String) (d : α) : α :=
  match assocGet m k with
  | some v => v
  | none => d

/-- JS `Map.set`: replace the binding in place if the key is present,
otherwise append it. -/
def assocSet {α : Type} (m : List (String × α)) (k : String) (v : α) :
    List (String × α) :=
  if (assocGet m k).isSome then
    m.map (fun p => if p.1 = k then (k, v) else p)
  else
    m ++ [(k, v)]

/-- JS truthiness of an optional numeric field: both `undefined` and `0`
are falsy (`if (this.params.takeProfitPercent)` skips a configured `0`). -/
def truthy : Option Rat → Bool
  | none => false
  | some x => x != 0

/- String literals of the source, named so they can be reused verbatim. -/

def errWinProbability : String := "Win probability must be between 0 and 1"

def errWinLoss : String := "Win/loss ratio must be positive"

def errAllocations : String := "Target allocations must sum to 1.0"

def rsnStopLoss : String := "STOP_LOSS"

def rsnTakeProfit : String := "TAKE_PROFIT"

def rsnTrailingStop : String := "TRAILING_STOP"

def evtDrawdownHalt : String := "DRAWDOWN_HALT"

def evtOracleUnhealthy : String := "ORACLE_UNHEALTHY"

def evtSecurityAlert : String := "SECURITY_ALERT"

def evtLowConfidence : String := "LOW_CONFIDENCE"

def evtStopLossTriggered : String := "STOP_LOSS_TRIGGERED"

def evtTradeDecision : String := "TRADE_DECISION"

def evtError : String := "ERROR"

def msgLargeOrder : String := "Large order detected"

def msgHighImpact : String := "High price impact detected"

def msgVolumeShare : String := "Order represents a large share of 24h volume"

def msgNoData : String := ": No data received"

def msgStaleData : String := ": Stale data"

def msgHighDeviation : String := ": High deviation"

def srcChainlink : String := "chainlink"

def srcUniswap : String := "uniswap"

def srcBinance : String := "binance"

def idCheck : String := "check"

def rsnStopLossPrefix : String := "Stop loss: "

def strUndefined : String := "undefined"

/-! ## Risk management module (`src/risk/position-sizing.ts`) -/

/-- Parameters of `calculateKellyCriterion`; the optional fields carry the
TS defaults `kellyFraction = 0.25`, `maxPositionPercent = 0.1` when absent.
The `winLoss` field is the win/loss (payoff) ratio parameter of the
source. -/
structure PositionSizingParams where
  bankroll : Int
  winProbability : Rat
  winLoss : Rat
  kellyFraction : Option Rat
  maxPositionPercent : Option Rat

/-- `calculateKellyCriterion`: full Kelly fraction, scaled by the safety
fraction, capped, then applied to the bankroll in basis points with
truncating bigint division. Throws on out-of-domain inputs. -/
def calculateKellyCriterion (params : PositionSizingParams) : Except String Int :=
  let kellyFraction := params.kellyFraction.getD 0.25
  let maxPositionPercent := params.maxPositionPercent.getD 0.1
  if params.winProbability ≤ 0 ∨ 1 ≤ params.winProbability then
    .error errWinProbability
  else if params.winLoss ≤ 0 then
    .error errWinLoss
  else
    let lossProbability := 1 - params.winProbability
    let fullKelly := (params.winLoss * params.winProbability - lossProbability) / params.winLoss
    let adjustedKelly := max 0 (fullKelly * kellyFraction)
    let finalFraction := min adjustedKelly maxPositionPercent
    .ok ((params.bankroll * ⌊finalFraction * 10000⌋).tdiv 10000)

/-- `StopLossParams` of the source; optional percents are `undefined` when
absent. -/
structure StopLossParams where
  entryPrice : Int
  stopLossPercent : Rat
  takeProfitPercent : Option Rat
  trailingStopPercent : Option Rat

/-- The mutable state of a `StopLossManager` instance. -/
structure StopLossManager where
  params : StopLossParams
  highestPrice : Int
  lowestPrice : Int
  isActive : Bool

/-- The `StopLossManager` constructor. -/
def mkStopLossManager (params : StopLossParams) : StopLossManager :=
  { params := params
    highestPrice := params.entryPrice
    lowestPrice := params.entryPrice
    isActive := true }

/-- Result of `updatePrice`. -/
structure ExitSignal where
  shouldExit : Bool
  reason : Option String
  deriving DecidableEq, Repr

/-- `calculateStopLossPrice`: note the source multiplies the percent by
`100` and divides by `10000n`. -/
def StopLossManager.calculateStopLossPrice (m : StopLossManager) : Int :=
  let drop := (m.params.entryPrice * ⌊m.params.stopLossPercent * 100⌋).tdiv 10000
  m.params.entryPrice - drop

/-- `calculateTakeProfitPrice` (returns `0` when unset, as the source). -/
def StopLossManager.calculateTakeProfitPrice (m : StopLossManager) : Int :=
  match m.params.takeProfitPercent with
  | none => 0
  | some tp =>
    let gain := (m.params.entryPrice * ⌊tp * 100⌋).tdiv 10000
    m.params.entryPrice + gain

/-- `calculateTrailingStopPrice` (relative to the running high). -/
def StopLossManager.calculateTrailingStopPrice (m : StopLossManager) : Int :=
  match m.params.trailingStopPercent with
  | none => 0
  | some ts =>
    let drop := (m.highestPrice * ⌊ts * 100⌋).tdiv 10000
    m.highestPrice - drop

/-- `StopLossManager.updatePrice`: refresh running high/low, then check the
hard stop, the take profit and the trailing stop in that order. The
`isActive` flag is only consulted, never cleared, by this method. -/
def StopLossManager.updatePrice (m : StopLossManager) (currentPrice : Int) :
    StopLossManager × ExitSignal :=
  if !m.isActive then
    (m, { shouldExit := false, reason := none })
  else
    let m := { m with
      highestPrice := if currentPrice > m.highestPrice then currentPrice else m.highestPrice
      lowestPrice := if currentPrice < m.lowestPrice then currentPrice else m.lowestPrice }
    if currentPrice ≤ m.calculateStopLossPrice then
      (m, { shouldExit := true, reason := some rsnStopLoss })
    else if truthy m.params.takeProfitPercent && decide (m.calculateTakeProfitPrice ≤ currentPrice) then
      (m, { shouldExit := true, reason := some rsnTakeProfit })
    else if truthy m.params.trailingStopPercent && decide (currentPrice ≤ m.calculateTrailingStopPrice) then
      (m, { shouldExit := true, reason := some rsnTrailingStop })
    else
      (m, { shouldExit := false, reason := none })

/-- `StopLossManager.deactivate`. -/
def StopLossManager.deactivate (m : StopLossManager) : StopLossManager :=
  { m with isActive := false }

/-- The `PortfolioBalancer` state (construction validates allocations). -/
structure PortfolioBalancer where
  targetAllocations : List (String × Rat)
  rebalanceThreshold : Rat
  maxSlippagePercent : Rat

/-- The `PortfolioBalancer` constructor: rejects allocation sets whose
values sum to a total differing from `1.0` by more than `0.01`. -/
def mkPortfolioBalancer (targetAllocations : List (String × Rat))
    (rebalanceThreshold : Rat) (maxSlippagePercent : Rat) :
    Except String PortfolioBalancer :=
  let total := (targetAllocations.map (fun p => p.2)).foldl (· + ·) 0
  if |total - 1| > 0.01 then
    .error errAllocations
  else
    .ok { targetAllocations := targetAllocations
          rebalanceThreshold := rebalanceThreshold
          maxSlippagePercent := maxSlippagePercent }

/-- `DrawdownConfig` of the source. -/
structure DrawdownConfig where
  maxDailyDrawdownPercent : Rat
  maxTotalDrawdownPercent : Rat
  cooldownPeriodMs : Int
  pauseOnTrigger : Bool

/-- `DrawdownState` of the source. -/
structure DrawdownState where
  peakValue : Int
  currentValue : Int
  dailyStartValue : Int
  lastReset : Int
  inCooldown : Bool
  cooldownEnd : Int
  triggeredCount : Nat

/-- A `DrawdownProtector` instance: its configuration plus mutable state. -/
structure DrawdownProtector where
  config : DrawdownConfig
  state : DrawdownState

/-- The `DrawdownProtector` constructor. -/
def mkDrawdownProtector (config : DrawdownConfig) (initialValue : Int)
    (now : Int) : DrawdownProtector :=
  { config := config
    state :=
      { peakValue := initialValue
        currentValue := initialValue
        dailyStartValue := initialValue
        lastReset := now
        inCooldown := false
        cooldownEnd := 0
        triggeredCount := 0 } }

/-- Status reported by `updateValue`. -/
inductive DrawdownStatusKind
  | NORMAL
  | WARNING
  | CRITICAL
  | COOLDOWN
  deriving DecidableEq, Repr

/-- Return value of `DrawdownProtector.updateValue`. -/
structure DrawdownStatus where
  canTrade : Bool
  drawdownPercent : Rat
  dailyDrawdownPercent : Rat
  status : DrawdownStatusKind
  deriving DecidableEq, Repr

/-- `calculateDrawdown` (zero when the peak is zero). -/
def DrawdownState.calculateDrawdown (s : DrawdownState) : Rat :=
  if s.peakValue = 0 then 0
  else ((s.peakValue - s.currentValue : Int) : Rat) / (s.peakValue : Rat)

/-- `calculateDailyDrawdown` (zero when the daily baseline is zero). -/
def DrawdownState.calculateDailyDrawdown (s : DrawdownState) : Rat :=
  if s.dailyStartValue = 0 then 0
  else ((s.dailyStartValue - s.currentValue : Int) : Rat) / (s.dailyStartValue : Rat)

/-- `triggerCooldown`. -/
def triggerCooldown (config : DrawdownConfig) (s : DrawdownState) (now : Int) :
    DrawdownState :=
  { s with
    inCooldown := true
    cooldownEnd := now + config.cooldownPeriodMs
    triggeredCount := s.triggeredCount + 1 }

/-- The tail of `updateValue` after the cooldown check: evaluate the total
and daily drawdown limits and report the status. -/
def DrawdownProtector.evaluateLimits (config : DrawdownConfig)
    (st : DrawdownState) (now : Int) : DrawdownStatus × DrawdownProtector :=
  let drawdownPercent := st.calculateDrawdown
  let dailyDrawdownPercent := st.calculateDailyDrawdown
  if config.maxTotalDrawdownPercent ≤ drawdownPercent then
    ({ canTrade := false
       drawdownPercent := drawdownPercent
       dailyDrawdownPercent := dailyDrawdownPercent
       status := .CRITICAL },
     { config := config, state := triggerCooldown config st now })
  else if config.maxDailyDrawdownPercent ≤ dailyDrawdownPercent then
    ({ canTrade := false
       drawdownPercent := drawdownPercent
       dailyDrawdownPercent := dailyDrawdownPercent
       status := .CRITICAL },
     { config := config, state := triggerCooldown config st now })
  else
    let warningThreshold := config.maxDailyDrawdownPercent * 0.8
    let status : DrawdownStatusKind :=
      if warningThreshold < dailyDrawdownPercent then .WARNING else .NORMAL
    ({ canTrade := !config.pauseOnTrigger || decide (status ≠ .CRITICAL)
       drawdownPercent := drawdownPercent
       dailyDrawdownPercent := dailyDrawdownPercent
       status := status },
     { config := config, state := st })

/-- `DrawdownProtector.updateValue`: record the new equity, refresh the
peak, roll the daily baseline, handle cooldown, then evaluate limits. -/
def DrawdownProtector.updateValue (p : DrawdownProtector)
    (now : Int) (currentValue : Int) : DrawdownStatus × DrawdownProtector :=
  let st := { p.state with currentValue := currentValue }
  let st := if currentValue > st.peakValue then { st with peakValue := currentValue } else st
  let st :=
    if now - st.lastReset > 86400000 then
      { st with dailyStartValue := currentValue, lastReset := now }
    else st
  if st.inCooldown then
    if st.cooldownEnd ≤ now then
      DrawdownProtector.evaluateLimits p.config { st with inCooldown := false } now
    else
      ({ canTrade := false
         drawdownPercent := st.calculateDrawdown
         dailyDrawdownPercent := st.calculateDailyDrawdown
         status := .COOLDOWN },
       { config := p.config, state := st })
  else
    DrawdownProtector.evaluateLimits p.config st now

/-- `DrawdownProtector.getState` (returns a copy of the state). -/
def DrawdownProtector.getState (p : DrawdownProtector) : DrawdownState :=
  p.state

/-- `DrawdownProtector.resetPeak`: sets the peak to the current value. -/
def DrawdownProtector.resetPeak (p : DrawdownProtector) : DrawdownProtector :=
  { p with state := { p.state with peakValue := p.state.currentValue } }

/-! ## Anti-manipulation module (`src/security/anti-manipulation.ts`) -/

/-- Order side. -/
inductive Side
  | BUY
  | SELL
  deriving DecidableEq, Repr

/-- `Order` of the source. -/
structure Order where
  id : String
  marketId : String
  trader : String
  side : Side
  amount : Int
  price : Int
  timestamp : Int
  blockNumber : Int
  deriving DecidableEq, Repr

/-- Alert severity. -/
inductive Severity
  | LOW
  | MEDIUM
  | HIGH
  | CRITICAL
  deriving DecidableEq, Repr

/-- Tags of `WhaleAlert`. -/
inductive WhaleAlertType
  | WHALE_ORDER
  | WHALE_TRADE
  | PRICE_IMPACT
  deriving DecidableEq, Repr

/-- `WhaleAlert` of the source. -/
structure WhaleAlert where
  type : WhaleAlertType
  severity : Severity
  trader : String
  marketId : String
  amount : Int
  impact : Rat
  message : String
  timestamp : Int
  deriving DecidableEq, Repr

/-- `WhaleDetector` state. -/
structure WhaleDetector where
  volumeThreshold : Int
  priceImpactThreshold : Rat
  historyWindowMs : Int
  orderHistory : List (String × List Order)
  volume24h : List (String × Int)

/-- The `WhaleDetector` constructor with the TS default thresholds
(`priceImpactThreshold = 0.02`, `historyWindowMs = 86400000`). -/
def mkWhaleDetector (volumeThreshold : Int) : WhaleDetector :=
  { volumeThreshold := volumeThreshold
    priceImpactThreshold := 0.02
    historyWindowMs := 86400000
    orderHistory := []
    volume24h := [] }

/-- `calculatePriceImpact`: constant-product approximation, `1` when
liquidity is zero. -/
def WhaleDetector.calculatePriceImpact (amount liquidity : Int) : Rat :=
  if liquidity = 0 then 1
  else (amount : Rat) / ((liquidity : Rat) + (amount : Rat))

/-- `storeOrder`: append to the per-market history and prune entries older
than the history window. -/
def WhaleDetector.storeOrder (d : WhaleDetector) (order : Order) (now : Int) :
    WhaleDetector :=
  let marketOrders := assocGetD d.orderHistory order.marketId []
  let marketOrders := marketOrders ++ [order]
  let cutoff := now - d.historyWindowMs
  let filtered := marketOrders.filter (fun o => cutoff < o.timestamp)
  { d with orderHistory := assocSet d.orderHistory order.marketId filtered }

/-- `WhaleDetector.analyzeOrder`: push (in this order) an absolute-size
alert, a price-impact alert and a 24h-volume-share alert onto a list, store
the order, and return the FIRST pushed alert (`alerts[0]`), if any. -/
def WhaleDetector.analyzeOrder (d : WhaleDetector) (order : Order)
    (currentLiquidity : Int) (now : Int) : Option WhaleAlert × WhaleDetector :=
  let alerts : List WhaleAlert := []
  let alerts :=
    if d.volumeThreshold ≤ order.amount then
      alerts ++ [{ type := .WHALE_ORDER
                   severity := .HIGH
                   trader := order.trader
                   marketId := order.marketId
                   amount := order.amount
                   impact := WhaleDetector.calculatePriceImpact order.amount currentLiquidity
                   message := msgLargeOrder
                   timestamp := now }]
    else alerts
  let impact := WhaleDetector.calculatePriceImpact order.amount currentLiquidity
  let alerts :=
    if d.priceImpactThreshold ≤ impact then
      alerts ++ [{ type := .PRICE_IMPACT
                   severity := if 0.05 < impact then .CRITICAL else .MEDIUM
                   trader := order.trader
                   marketId := order.marketId
                   amount := order.amount
                   impact := impact
                   message := msgHighImpact
                   timestamp := now }]
    else alerts
  let marketVolume := assocGetD d.volume24h order.marketId 0
  let alerts :=
    if 0 < marketVolume then
      let relativeSize := (order.amount : Rat) / (marketVolume : Rat)
      if 0.1 < relativeSize then
        alerts ++ [{ type := .WHALE_TRADE
                     severity := if 0.25 < relativeSize then .CRITICAL else .HIGH
                     trader := order.trader
                     marketId := order.marketId
                     amount := order.amount
                     impact := relativeSize
                     message := msgVolumeShare
                     timestamp := now }]
      else alerts
    else alerts
  (alerts.head?, d.storeOrder order now)

/-- `OracleStatus` of the source. -/
structure OracleStatus where
  source : String
  isActive : Bool
  lastUpdate : Int
  price : Int
  deviation : Rat
  stalenessMs : Int
  confidence : Rat
  deriving DecidableEq, Repr

/-- `OracleMonitor` state. -/
structure OracleMonitor where
  sources : List String
  maxStalenessMs : Int
  maxDeviationPercent : Rat
  sourceStates : List (String × OracleStatus)

/-- The `OracleMonitor` constructor with the TS defaults
(`maxStalenessMs = 300000`, `maxDeviationPercent = 0.02`). -/
def mkOracleMonitor (sources : List String) : OracleMonitor :=
  { sources := sources
    maxStalenessMs := 300000
    maxDeviationPercent := 0.02
    sourceStates := [] }

/-- `OracleMonitor.checkHealth`: one issue per violating source (missing
data, staleness above the maximum, or deviation above the maximum);
healthy iff no issues. -/
def OracleMonitor.checkHealth (m : OracleMonitor) : Bool × List String :=
  let issues := m.sources.foldl
    (fun issues source =>
      match assocGet m.sourceStates source with
      | none => issues ++ [source ++ msgNoData]
      | some state =>
        let issues :=
          if m.maxStalenessMs < state.stalenessMs then issues ++ [source ++ msgStaleData]
          else issues
        if m.maxDeviationPercent < state.deviation then issues ++ [source ++ msgHighDeviation]
        else issues)
    []
  (issues.isEmpty, issues)

/-! ## Base agent (`src/agents/base-agent.ts`) -/

/-- `AgentConfig` of the source. -/
structure AgentConfig where
  name : String
  maxPositionPercent : Rat
  minConfidenceThreshold : Rat
  kellyFraction : Rat
  stopLossPercent : Rat
  takeProfitPercent : Option Rat
  maxDailyDrawdownPercent : Rat
  maxTotalDrawdownPercent : Rat
  rebalanceThreshold : Rat
  whaleThreshold : Int
  tradingEnabled : Bool

/-- `MarketData` of the source. -/
structure MarketData where
  marketId : String
  currentPrice : Int
  liquidity : Int
  volume24h : Int
  volatility : Rat
  timestamp : Int

/-- `Prediction` of the source. -/
structure Prediction where
  marketId : String
  outcome : Bool
  confidence : Rat
  expectedValue : Rat
  timestamp : Int

/-- Trade actions. -/
inductive TradeAction
  | BUY
  | SELL
  | HOLD
  deriving DecidableEq, Repr

/-- `TradeDecision` of the source. -/
structure TradeDecision where
  action : TradeAction
  amount : Int
  marketId : String
  reason : String
  confidence : Rat
  deriving DecidableEq, Repr

/-- `PortfolioPosition` of the source. -/
structure PortfolioPosition where
  marketId : String
  position : Int
  entryPrice : Int
  currentPrice : Int
  timestamp : Int

/-- `PortfolioState` of the source. -/
structure PortfolioState where
  totalValue : Int
  positions : List PortfolioPosition
  cash : Int
  lastRebalance : Int

/-- The state of a `BaseAgent` instance. The wash-trading and sandwich
detectors constructed by the source are omitted: no modelled method reads
them (and construction aborts before they would be built, see
`mkBaseAgent`). -/
structure BaseAgent where
  config : AgentConfig
  walletAddress : String
  walletBalance : Int
  portfolio : PortfolioState
  drawdownProtector : DrawdownProtector
  stopLossManagers : List (String × StopLossManager)
  portfolioBalancer : PortfolioBalancer
  whaleDetector : WhaleDetector
  oracleMonitor : OracleMonitor
  isRunning : Bool

/-- The `BaseAgent` constructor: initializes the portfolio and the
drawdown protector, then constructs the `PortfolioBalancer` with an EMPTY
target-allocation map (the comment in the source says allocations are set
by subclasses) — that construction throws. -/
def mkBaseAgent (config : AgentConfig) (walletAddress : String)
    (walletBalance : Int) (now : Int) : Except String BaseAgent :=
  let portfolio : PortfolioState :=
    { totalValue := walletBalance
      positions := []
      cash := walletBalance
      lastRebalance := now }
  let drawdownConfig : DrawdownConfig :=
    { maxDailyDrawdownPercent := config.maxDailyDrawdownPercent
      maxTotalDrawdownPercent := config.maxTotalDrawdownPercent
      cooldownPeriodMs := 3600000
      pauseOnTrigger := true }
  let dp := mkDrawdownProtector drawdownConfig walletBalance now
  match mkPortfolioBalancer [] config.rebalanceThreshold 1.0 with
  | .error e => .error e
  | .ok pb =>
    .ok { config := config
          walletAddress := walletAddress
          walletBalance := walletBalance
          portfolio := portfolio
          drawdownProtector := dp
          stopLossManagers := []
          portfolioBalancer := pb
          whaleDetector := mkWhaleDetector config.whaleThreshold
          oracleMonitor := mkOracleMonitor [srcChainlink, srcUniswap, srcBinance]
          isRunning := false }

/-- `getPositionSize`. -/
def BaseAgent.getPositionSize (a : BaseAgent) (marketId : String) : Int :=
  match a.portfolio.positions.find? (fun p => p.marketId == marketId) with
  | some p => p.position
  | none => 0

/-- The synthetic probe order built by `checkForManipulation` (amount is
one percent of current liquidity, truncating bigint division). -/
def BaseAgent.probeOrder (a : BaseAgent) (marketData : MarketData) (now : Int) :
    Order :=
  { id := idCheck
    marketId := marketData.marketId
    trader := a.walletAddress
    side := .BUY
    amount := marketData.liquidity.tdiv 100
    price := marketData.currentPrice
    timestamp := now
    blockNumber := 0 }

/-- `checkForManipulation`: run the whale detector on the probe order; the
alert is surfaced, and the trade blocked, only when its severity is
CRITICAL. -/
def BaseAgent.checkForManipulation (a : BaseAgent) (marketData : MarketData)
    (now : Int) : (Option WhaleAlert × Bool) × BaseAgent :=
  let r := a.whaleDetector.analyzeOrder (a.probeOrder marketData now) marketData.liquidity now
  let a := { a with whaleDetector := r.2 }
  match r.1 with
  | some alert =>
    if alert.severity = .CRITICAL then ((some alert, true), a) else ((none, false), a)
  | none => ((none, false), a)

/-- `validateWithRiskManagement`: confidence gate (logs LOW_CONFIDENCE),
Kelly sizing (the Kelly call can throw, which this method does not catch),
non-positive-size rejection (silent: no audit event), then the stop-loss
override (logs STOP_LOSS_TRIGGERED and forces a full SELL). Returns the
validated decision, the updated agent, and the audit event types written. -/
def BaseAgent.validateWithRiskManagement (a : BaseAgent)
    (decision : TradeDecision) (marketData : MarketData) :
    Except String (Option TradeDecision × BaseAgent × List String) :=
  if decision.confidence < a.config.minConfidenceThreshold then
    .ok (none, a, [evtLowConfidence])
  else
    match calculateKellyCriterion
        { bankroll := a.portfolio.totalValue
          winProbability := decision.confidence
          winLoss := 1.5
          kellyFraction := some a.config.kellyFraction
          maxPositionPercent := some a.config.maxPositionPercent } with
    | .error e => .error e
    | .ok kellySize =>
      let maxPosition :=
        (a.portfolio.totalValue * ⌊a.config.maxPositionPercent * 10000⌋).tdiv 10000
      let positionSize := if kellySize < maxPosition then kellySize else maxPosition
      if positionSize ≤ 0 then
        .ok (none, a, [])
      else
        match assocGet a.stopLossManagers decision.marketId with
        | some existingSL =>
          let r := existingSL.updatePrice marketData.currentPrice
          let a := { a with stopLossManagers := assocSet a.stopLossManagers decision.marketId r.1 }
          if r.2.shouldExit then
            .ok (some { action := .SELL
                        amount := a.getPositionSize decision.marketId
                        marketId := decision.marketId
                        reason := rsnStopLossPrefix ++ (r.2.reason.getD strUndefined)
                        confidence := 1 },
                 a, [evtStopLossTriggered])
          else
            .ok (some { decision with amount := positionSize }, a, [])
        | none =>
          .ok (some { decision with amount := positionSize }, a, [])

/-- `processMarketData`, the pipeline entry point. The abstract
`makeTradingDecision` of the subclass is passed as a function parameter.
Returns the decision (or `null`), the updated agent, and the list of audit
event types written during the call. The whole gate sequence runs inside a
`try`; any thrown error is caught, an ERROR event is logged, and `null` is
returned. -/
def BaseAgent.processMarketData (a : BaseAgent)
    (makeTradingDecision : MarketData → Prediction → Option TradeDecision)
    (marketData : MarketData) (prediction : Prediction) (now : Int) :
    Option TradeDecision × BaseAgent × List String :=
  if !a.isRunning || !a.config.tradingEnabled then
    (none, a, [])
  else
    let ddp := a.drawdownProtector.updateValue now a.portfolio.totalValue
    let a1 := { a with drawdownProtector := ddp.2 }
    if !ddp.1.canTrade then
      (none, a1, [evtDrawdownHalt])
    else
      let oracleHealth := a1.oracleMonitor.checkHealth
      if !oracleHealth.1 then
        (none, a1, [evtOracleUnhealthy])
      else
        let mc := a1.checkForManipulation marketData now
        let a2 := mc.2
        let alertLogs := match mc.1.1 with
          | some _ => [evtSecurityAlert]
          | none => []
        if mc.1.2 then
          (none, a2, alertLogs)
        else
          match makeTradingDecision marketData prediction with
          | none => (none, a2, alertLogs)
          | some decision =>
            if decision.action = .HOLD then
              (none, a2, alertLogs)
            else
              match a2.validateWithRiskManagement decision marketData with
              | .error _ => (none, a2, alertLogs ++ [evtError])
              | .ok (none, a3, vlogs) => (none, a3, alertLogs ++ vlogs)
              | .ok (some validated, a3, vlogs) =>
                (some validated, a3, alertLogs ++ vlogs ++ [evtTradeDecision])

/-! ## Audit trail module (`src/audit/audit-trail.ts`)

The content hash (`ethers.keccak256` in the source) is modelled by an
arbitrary hash function parameter; theorems that need tamper evidence
assume it injective on canonical serializations, exactly the "modulo hash
collisions" reading of the specification. JSON string escaping inside the
serialized `type`/`agent` labels is elided (the payload `data` is embedded
raw, as `JSON.stringify` embeds the serialization of a sub-object). -/

/-- An audit entry; the opaque payload (`data: any`) is modelled by its
canonical JSON serialization. -/
structure AuditEntry where
  type : String
  agent : String
  data : String
  timestamp : Int
  hash : Option String
  signature : Option String
  deriving DecidableEq, Repr

/-- JSON rendering of a string value (escaping elided). -/
def quoteStr (s : String) : String := "\"" ++ s ++ "\""

/-- The canonical serialization hashed by `generateHash`:
`JSON.stringify({ type, agent, data, timestamp })`. -/
def serializeEntry (type agent data : String) (timestamp : Int) : String :=
  "\x7b\"type\":" ++ quoteStr type ++ ",\"agent\":" ++ quoteStr agent ++
    ",\"data\":" ++ data ++ (",\"timestamp\":" ++ toString timestamp ++ "\x7d")

/-- `generateHash`: hash of the canonical serialization of the entry's
`type`, `agent`, `data` and `timestamp` (the stored hash and signature are
not part of the hashed content). -/
def generateHash (hashFn : String → String) (entry : AuditEntry) : String :=
  hashFn (serializeEntry entry.type entry.agent entry.data entry.timestamp)

/-- The local state of an `AuditLogger` (on-chain parts are out of
scope). -/
structure AuditLogger where
  entries : List AuditEntry
  merkleTree : List String

/-- `AuditLogger.log`: stamp the timestamp (`entry.timestamp || Date.now()`:
a zero timestamp is falsy in JS and is replaced by the current time),
compute and store the content hash, and append the entry and its hash. -/
def AuditLogger.log (hashFn : String → String) (logger : AuditLogger)
    (type agent data : String) (timestamp now : Int) : AuditEntry × AuditLogger :=
  let ts := if timestamp = 0 then now else timestamp
  let base : AuditEntry :=
    { type := type, agent := agent, data := data, timestamp := ts
      hash := none, signature := none }
  let h := generateHash hashFn base
  let fullEntry := { base with hash := some h }
  (fullEntry,
   { entries := logger.entries ++ [fullEntry]
     merkleTree := logger.merkleTree ++ [h] })

/-- `AuditLogger.verifyEntry`: recompute the content hash and compare with
the stored one (an absent stored hash compares unequal). -/
def AuditLogger.verifyEntry (hashFn : String → String) (entry : AuditEntry) : Bool :=
  some (generateHash hashFn entry) == entry.hash

/-! ## Theorems -/

/-- Helper: `serializeEntry` is injective in the payload component when
the other components are fixed. -/
theorem serializeEntry_data_injective (type agent : String) (ts : Int)
    {d d' : String}
    (h : serializeEntry type agent d ts = serializeEntry type agent d' ts) :
    d = d' := by
  unfold serializeEntry at h
  have h2 := congrArg String.data h
  simp only [String.data_append, List.append_assoc] at h2
  have h3 := List.append_cancel_left h2
  have h4 := List.append_cancel_left h3
  have h5 := List.append_cancel_left h4
  have h6 := List.append_cancel_left h5
  have h7 := List.append_cancel_left h6
  have h8 := List.append_cancel_right h7
  cases d
  cases d'
  exact congrArg String.mk h8

/-- C2: for every agent configuration, wallet and clock, the `BaseAgent`
constructor throws `Target allocations must sum to 1.0`: it hands the
`PortfolioBalancer` constructor an empty target-allocation map, the empty
map sums to `0`, and `|0 - 1| > 0.01`. -/
theorem mkBaseAgent_always_errors (config : AgentConfig) (walletAddress : String)
    (walletBalance : Int) (now : Int) :
    mkBaseAgent config walletAddress walletBalance now = .error errAllocations := by
  have hempty : mkPortfolioBalancer [] config.rebalanceThreshold 1.0 =
      .error errAllocations := by
    unfold mkPortfolioBalancer
    norm_num
  unfold mkBaseAgent
  rw [hempty]

/-- C3: the code, evaluated at the failing input of the claim (and of the
repository's own test suite): a fresh `StopLossManager` with entry `1000`,
stop `5%`, take `15%`, trailing `10%` reports an exit with reason
TAKE_PROFIT at price `1050` (the claim and the tests expect no exit), and
after a rise to `1200` it reports TAKE_PROFIT rather than the expected
TRAILING_STOP at `1079`: `calculateTakeProfitPrice` scales the percent by
`100` but divides by `10000`, so the take-profit price is `1001` instead
of `1150`. -/
theorem stopLossManager_percent_scaling_bug :
    (((mkStopLossManager
        { entryPrice := 1000, stopLossPercent := 0.05
          takeProfitPercent := some 0.15, trailingStopPercent := some 0.10 }).updatePrice
        1050).2 =
      { shouldExit := true, reason := some rsnTakeProfit }) ∧
    ((((mkStopLossManager
        { entryPrice := 1000, stopLossPercent := 0.05
          takeProfitPercent := some 0.15, trailingStopPercent := some 0.10 }).updatePrice
        1200).1.updatePrice 1079).2 =
      { shouldExit := true, reason := some rsnTakeProfit }) := by
  constructor <;>
    norm_num [mkStopLossManager, StopLossManager.updatePrice,
      StopLossManager.calculateStopLossPrice, StopLossManager.calculateTakeProfitPrice,
      StopLossManager.calculateTrailingStopPrice, truthy, Int.tdiv]

/-- C4 counterexample: `updatePrice` does not record the TRIGGERED
transition; after an exit signal at price `940` the very next call with
the same price issues the exit signal again, contradicting "subsequent
calls are no-ops returning no exit". -/
theorem updatePrice_reissues_exit_after_trigger :
    ((((mkStopLossManager
        { entryPrice := 1000, stopLossPercent := 0.05
          takeProfitPercent := none, trailingStopPercent := none }).updatePrice
        940).2.shouldExit = true) ∧
     ((((mkStopLossManager
        { entryPrice := 1000, stopLossPercent := 0.05
          takeProfitPercent := none, trailingStopPercent := none }).updatePrice
        940).1.updatePrice 940).2.shouldExit = true)) := by
  constructor <;>
    norm_num [mkStopLossManager, StopLossManager.updatePrice,
      StopLossManager.calculateStopLossPrice, StopLossManager.calculateTakeProfitPrice,
      StopLossManager.calculateTrailingStopPrice, truthy, Int.tdiv]

/-- C4 amended: the tracker stops issuing signals only once `deactivate()`
has been called: a deactivated tracker's `updatePrice` is a no-op
returning no exit (the state, including the running high/low, is left
untouched). -/
theorem updatePrice_noop_after_deactivate (m : StopLossManager) (p : Int) :
    (m.deactivate).updatePrice p =
      (m.deactivate, { shouldExit := false, reason := none }) := by
  simp [StopLossManager.deactivate, StopLossManager.updatePrice]

/-- C7: whenever the win probability lies outside the open interval (0,1)
or the payoff ratio is non-positive, `calculateKellyCriterion` throws a
domain error (it never returns an `ok` value for such inputs). -/
theorem calculateKellyCriterion_domain_error (params : PositionSizingParams)
    (h : params.winProbability ≤ 0 ∨ 1 ≤ params.winProbability ∨ params.winLoss ≤ 0) :
    ∃ e, calculateKellyCriterion params = .error e := by
  by_cases hp : params.winProbability ≤ 0 ∨ 1 ≤ params.winProbability
  · exact ⟨errWinProbability, by simp only [calculateKellyCriterion, if_pos hp]⟩
  · have hr : params.winLoss ≤ 0 := by tauto
    exact ⟨errWinLoss, by simp only [calculateKellyCriterion, if_neg hp, if_pos hr]⟩

/-- C7 witness: a concrete out-of-domain input (`winProbability = 1.5`). -/
theorem calculateKellyCriterion_domain_error_witness :
    ∃ e, calculateKellyCriterion
        { bankroll := 10000, winProbability := 1.5, winLoss := 1
          kellyFraction := none, maxPositionPercent := none } = .error e :=
  calculateKellyCriterion_domain_error
    { bankroll := 10000, winProbability := 1.5, winLoss := 1
      kellyFraction := none, maxPositionPercent := none }
    (Or.inr (Or.inl (by norm_num)))

/-- C10: audit verification is a round trip. For any injective hash
function, any logger state and any entry fields: `verifyEntry` accepts the
entry just produced by `log` unmodified, and rejects every mutation of its
payload whose canonical serialization differs. -/
theorem verifyEntry_roundtrip (hashFn : String → String)
    (hinj : Function.Injective hashFn) (logger : AuditLogger)
    (type agent data : String) (timestamp now : Int) :
    AuditLogger.verifyEntry hashFn
        (AuditLogger.log hashFn logger type agent data timestamp now).1 = true ∧
      ∀ dataMut : String,
        dataMut ≠ (AuditLogger.log hashFn logger type agent data timestamp now).1.data →
        AuditLogger.verifyEntry hashFn
          { (AuditLogger.log hashFn logger type agent data timestamp now).1 with
            data := dataMut } = false := by
  constructor
  · simp [AuditLogger.log, AuditLogger.verifyEntry, generateHash]
  · intro dataMut hne
    simp only [AuditLogger.log, AuditLogger.verifyEntry, generateHash] at hne ⊢
    rw [beq_eq_false_iff_ne]
    intro hcontra
    have hser := hinj (Option.some.inj hcontra)
    exact hne (serializeEntry_data_injective _ _ _ hser)

/-- A concrete serialized payload used by witnesses. -/
def tPayloadA : String := "\"a\""

/-- A second, different concrete serialized payload. -/
def tPayloadB : String := "\"b\""

/-- C10 witness: the round trip evaluated with the identity hash function
(injective) on a concrete entry, with a concrete payload mutation. -/
theorem verifyEntry_roundtrip_witness :
    AuditLogger.verifyEntry id
        (AuditLogger.log id ⟨[], []⟩ evtTradeDecision srcChainlink tPayloadA 5 7).1 = true ∧
      AuditLogger.verifyEntry id
        { (AuditLogger.log id ⟨[], []⟩ evtTradeDecision srcChainlink tPayloadA 5 7).1 with
          data := tPayloadB } = false :=
  ⟨(verifyEntry_roundtrip id (fun _ _ h => h) ⟨[], []⟩ evtTradeDecision srcChainlink
      tPayloadA 5 7).1,
   (verifyEntry_roundtrip id (fun _ _ h => h) ⟨[], []⟩ evtTradeDecision srcChainlink
      tPayloadA 5 7).2 tPayloadB
     (by simp [AuditLogger.log, tPayloadA, tPayloadB])⟩

/-- C6: for every win probability in (0,1), payoff ratio > 0, safety and
cap fractions in [0,1] and non-negative bankroll, `calculateKellyCriterion`
returns a non-negative amount bounded by `bankroll × capFraction`, and
returns exactly zero whenever the edge `r·p − (1−p)` is non-positive. -/
theorem calculateKellyCriterion_bounds (b : Int) (p r kf mpp : Rat)
    (hb : 0 ≤ b) (hp0 : 0 < p) (hp1 : p < 1) (hr : 0 < r)
    (hkf0 : 0 ≤ kf) (hkf1 : kf ≤ 1) (hm0 : 0 ≤ mpp) (hm1 : mpp ≤ 1) :
    ∃ n : Int,
      calculateKellyCriterion
          { bankroll := b, winProbability := p, winLoss := r
            kellyFraction := some kf, maxPositionPercent := some mpp } = .ok n ∧
        0 ≤ n ∧ (n : ℚ) ≤ (b : ℚ) * mpp ∧
        (r * p - (1 - p) ≤ 0 → n = 0) := by
  have hg1 : ¬((p : ℚ) ≤ 0 ∨ 1 ≤ p) := by push_neg; exact ⟨hp0, hp1⟩
  have hg2 : ¬((r : ℚ) ≤ 0) := not_le.mpr hr
  refine ⟨(b * ⌊min (max 0 ((r * p - (1 - p)) / r * kf)) mpp * 10000⌋).tdiv 10000, ?_, ?_, ?_, ?_⟩
  · simp only [calculateKellyCriterion, Option.getD_some]
    rw [if_neg hg1, if_neg hg2]
  all_goals {
    have hff0 : 0 ≤ min (max 0 ((r * p - (1 - p)) / r * kf)) mpp :=
      le_min (le_max_left 0 _) hm0
    have hfloor0 : 0 ≤ ⌊min (max 0 ((r * p - (1 - p)) / r * kf)) mpp * 10000⌋ :=
      Int.floor_nonneg.mpr (by positivity)
    first
    | exact Int.tdiv_nonneg (mul_nonneg hb hfloor0) (by norm_num)
    | ( rw [Int.tdiv_eq_ediv (mul_nonneg hb hfloor0) (by norm_num)]
        have h2 : ((b * ⌊min (max 0 ((r * p - (1 - p)) / r * kf)) mpp * 10000⌋) / 10000 : Int)
            * 10000 ≤ b * ⌊min (max 0 ((r * p - (1 - p)) / r * kf)) mpp * 10000⌋ :=
          Int.ediv_mul_le _ (by norm_num)
        have h2q : (((b * ⌊min (max 0 ((r * p - (1 - p)) / r * kf)) mpp * 10000⌋) / 10000 : Int) : ℚ)
            * 10000 ≤ ((b : ℚ)) * ((⌊min (max 0 ((r * p - (1 - p)) / r * kf)) mpp * 10000⌋ : Int) : ℚ) := by
          exact_mod_cast h2
        have h3 : ((⌊min (max 0 ((r * p - (1 - p)) / r * kf)) mpp * 10000⌋ : Int) : ℚ) ≤ mpp * 10000 :=
          (Int.floor_le _).trans
            (mul_le_mul_of_nonneg_right (min_le_right _ _) (by norm_num))
        have h5 : ((b : ℚ)) * ((⌊min (max 0 ((r * p - (1 - p)) / r * kf)) mpp * 10000⌋ : Int) : ℚ)
            ≤ (b : ℚ) * (mpp * 10000) :=
          mul_le_mul_of_nonneg_left h3 (by exact_mod_cast hb)
        nlinarith [h2q, h5] )
    | ( intro hedge
        have hfk : (r * p - (1 - p)) / r ≤ 0 :=
          div_nonpos_of_nonpos_of_nonneg hedge hr.le
        have hmul : (r * p - (1 - p)) / r * kf ≤ 0 :=
          mul_nonpos_iff.mpr (Or.inr ⟨hfk, hkf0⟩)
        have hmax : max 0 ((r * p - (1 - p)) / r * kf) = 0 := max_eq_left hmul
        have hmin : min (max 0 ((r * p - (1 - p)) / r * kf)) mpp = 0 := by
          rw [hmax]; exact min_eq_left hm0
        rw [hmin]
        norm_num )
  }

/-- C6 witness: the bounds theorem applied at the concrete input of the
repository's own Kelly test (`bankroll 10000`, `p = 0.6`, `r = 1.5`,
quarter Kelly, 10% cap). -/
theorem calculateKellyCriterion_bounds_witness :
    ∃ n : Int,
      calculateKellyCriterion
          { bankroll := 10000, winProbability := 0.6, winLoss := 1.5
            kellyFraction := some 0.25, maxPositionPercent := some 0.1 } = .ok n ∧
        0 ≤ n ∧ (n : ℚ) ≤ (10000 : ℚ) * 0.1 ∧
        ((1.5 : ℚ) * 0.6 - (1 - 0.6) ≤ 0 → n = 0) :=
  calculateKellyCriterion_bounds 10000 0.6 1.5 0.25 0.1 (by norm_num) (by norm_num)
    (by norm_num) (by norm_num) (by norm_num) (by norm_num) (by norm_num) (by norm_num)

/-- C9 amended: `updateValue` never decreases the stored peak (and
`getState` does not mutate at all), while `resetPeak` overwrites the peak
with the current equity value — which can be below the old peak. -/
theorem drawdownProtector_peak_behaviour :
    (∀ (p : DrawdownProtector) (now v : Int),
        p.state.peakValue ≤ ((p.updateValue now v).2).state.peakValue) ∧
      (∀ p : DrawdownProtector,
        ((p.resetPeak).state.peakValue = p.state.currentValue) ∧ p.getState = p.state) := by
  constructor
  · intro p now v
    unfold DrawdownProtector.updateValue DrawdownProtector.evaluateLimits triggerCooldown
    dsimp only
    split_ifs <;> simp_all <;> omega
  · intro p
    exact ⟨rfl, rfl⟩

/-- A concrete drawdown configuration used by counterexamples (the limits
of the repository's own drawdown tests). -/
def ddTestConfig : DrawdownConfig :=
  { maxDailyDrawdownPercent := 0.03
    maxTotalDrawdownPercent := 0.10
    cooldownPeriodMs := 3600000
    pauseOnTrigger := true }

/-- C9 counterexample: a sequence of public operations after which the
stored peak DECREASES — start at equity `10000`, update to `5000`
(peak stays `10000`), then call `resetPeak`: the peak drops to `5000`. -/
theorem resetPeak_decreases_peak :
    ((((mkDrawdownProtector ddTestConfig 10000 0).updateValue 0 5000).2).resetPeak).state.peakValue <
      (((mkDrawdownProtector ddTestConfig 10000 0).updateValue 0 5000).2).state.peakValue := by
  norm_num [mkDrawdownProtector, DrawdownProtector.updateValue,
    DrawdownProtector.evaluateLimits, DrawdownState.calculateDrawdown,
    DrawdownState.calculateDailyDrawdown, triggerCooldown,
    DrawdownProtector.resetPeak, ddTestConfig]

/-- The order of the claim's second example: amount `1e18` (exactly the
configured volume threshold). -/
def orderEqualThreshold : Order :=
  { id := "1", marketId := "MARKET1", trader := "0x123", side := .BUY
    amount := 10 ^ 18, price := 1000, timestamp := 0, blockNumber := 1 }

/-- The order of the claim's first example: amount `2e18`. -/
def orderDoubleThreshold : Order :=
  { id := "1", marketId := "MARKET1", trader := "0x123", side := .BUY
    amount := 2 * 10 ^ 18, price := 1000, timestamp := 0, blockNumber := 1 }

/-- The order of the claim's third example: amount `1e16`. -/
def orderSmall : Order :=
  { id := "1", marketId := "MARKET1", trader := "0x123", side := .BUY
    amount := 10 ^ 16, price := 1000, timestamp := 0, blockNumber := 1 }

/-- C5 counterexample: an order of amount `1e18` against liquidity `1e18`
(the claim's second example) yields a WHALE_ORDER alert of severity HIGH,
not the claimed PRICE_IMPACT alert — the amount meets the absolute
threshold, whose alert is pushed first and returned (`alerts[0]`), even
though the applicable price-impact alert (impact `0.5 > 0.05`) has the
strictly higher severity CRITICAL. -/
theorem analyzeOrder_equal_threshold_not_price_impact :
    ((((mkWhaleDetector (10 ^ 18)).analyzeOrder orderEqualThreshold (10 ^ 18) 0).1).map
        (fun al => (al.type, al.severity)) =
      some (WhaleAlertType.WHALE_ORDER, Severity.HIGH)) ∧
      (0.05 : ℚ) < WhaleDetector.calculatePriceImpact (10 ^ 18) (10 ^ 18) := by
  constructor
  · norm_num [mkWhaleDetector, WhaleDetector.analyzeOrder,
      WhaleDetector.calculatePriceImpact, WhaleDetector.storeOrder,
      assocGet, assocGetD, assocSet, orderEqualThreshold]
  · norm_num [WhaleDetector.calculatePriceImpact]

/-- C5 amended: `analyzeOrder` returns at most one alert — the first one
pushed in the fixed check order (absolute size, then price impact, then
24h-volume share), not necessarily the highest-severity applicable one.
Whenever the order's amount meets the absolute volume threshold the
returned alert is therefore WHALE_ORDER; the claim's first example yields
WHALE_ORDER and its third yields no alert (its second also yields
WHALE_ORDER, see the counterexample). -/
theorem analyzeOrder_first_match :
    (∀ (d : WhaleDetector) (order : Order) (liq now : Int),
        d.volumeThreshold ≤ order.amount →
        (((d.analyzeOrder order liq now).1).map (fun al => al.type)) =
          some WhaleAlertType.WHALE_ORDER) ∧
      ((((mkWhaleDetector (10 ^ 18)).analyzeOrder orderDoubleThreshold (10 ^ 19) 0).1).map
          (fun al => al.type) = some WhaleAlertType.WHALE_ORDER) ∧
      (((mkWhaleDetector (10 ^ 18)).analyzeOrder orderSmall (10 ^ 19) 0).1 = none) := by
  refine ⟨?_, ?_, ?_⟩
  · intro d order liq now h
    simp only [WhaleDetector.analyzeOrder, if_pos h]
    split_ifs <;> simp
  · norm_num [mkWhaleDetector, WhaleDetector.analyzeOrder,
      WhaleDetector.calculatePriceImpact, WhaleDetector.storeOrder,
      assocGet, assocGetD, assocSet, orderDoubleThreshold]
  · norm_num [mkWhaleDetector, WhaleDetector.analyzeOrder,
      WhaleDetector.calculatePriceImpact, WhaleDetector.storeOrder,
      assocGet, assocGetD, assocSet, orderSmall]

/-- C5 witness: the first-match rule applied at the claim's first example
(amount `2e18` against threshold `1e18`). -/
theorem analyzeOrder_first_match_witness :
    (((mkWhaleDetector (10 ^ 18)).analyzeOrder orderDoubleThreshold (10 ^ 19) 0).1).map
        (fun al => al.type) = some WhaleAlertType.WHALE_ORDER :=
  analyzeOrder_first_match.1 (mkWhaleDetector (10 ^ 18)) orderDoubleThreshold (10 ^ 19) 0
    (by norm_num [mkWhaleDetector, orderDoubleThreshold])

/-- A concrete agent configuration for pipeline counterexamples (the
profile of the conservative bot, trading enabled). -/
def testConfig : AgentConfig :=
  { name := "Bot"
    maxPositionPercent := 0.1
    minConfidenceThreshold := 0.5
    kellyFraction := 0.25
    stopLossPercent := 0.05
    takeProfitPercent := none
    maxDailyDrawdownPercent := 0.03
    maxTotalDrawdownPercent := 0.10
    rebalanceThreshold := 0.02
    whaleThreshold := 10 ^ 18
    tradingEnabled := true }

/-- A healthy oracle source state (fresh and in consensus). -/
def healthySource (src : String) : OracleStatus :=
  { source := src, isActive := true, lastUpdate := 0, price := 2500
    deviation := 0, stalenessMs := 0, confidence := 1 }

/-- An oracle monitor whose three configured sources are all healthy. -/
def testOracle : OracleMonitor :=
  { sources := [srcChainlink, srcUniswap, srcBinance]
    maxStalenessMs := 300000
    maxDeviationPercent := 0.02
    sourceStates :=
      [(srcChainlink, healthySource srcChainlink),
       (srcUniswap, healthySource srcUniswap),
       (srcBinance, healthySource srcBinance)] }

/-- A concrete running agent that passes the drawdown, oracle and
manipulation gates on `testMarketData`. -/
def testAgent : BaseAgent :=
  { config := testConfig
    walletAddress := "0xagent"
    walletBalance := 10000
    portfolio := { totalValue := 10000, positions := [], cash := 10000, lastRebalance := 0 }
    drawdownProtector := mkDrawdownProtector ddTestConfig 10000 0
    stopLossManagers := []
    portfolioBalancer :=
      { targetAllocations := [], rebalanceThreshold := 0.02, maxSlippagePercent := 1 }
    whaleDetector := mkWhaleDetector (10 ^ 18)
    oracleMonitor := testOracle
    isRunning := true }

/-- A market snapshot with small liquidity (the synthetic probe order is
far below every manipulation threshold). -/
def testMarketData : MarketData :=
  { marketId := "M", currentPrice := 50, liquidity := 100, volume24h := 0
    volatility := 0, timestamp := 0 }

/-- A prediction input (read only through the strategy function here). -/
def testPrediction : Prediction :=
  { marketId := "M", outcome := true, confidence := 0.9, expectedValue := 0.5
    timestamp := 0 }

/-- A strategy that proposes HOLD. -/
def strategyHold : MarketData → Prediction → Option TradeDecision :=
  fun _ _ =>
    some { action := .HOLD, amount := 0, marketId := "M", reason := "hold", confidence := 0.9 }

/-- A strategy that proposes BUY with confidence exactly `1.0`. -/
def strategyFullConfidence : MarketData → Prediction → Option TradeDecision :=
  fun _ _ =>
    some { action := .BUY, amount := 0, marketId := "M", reason := "buy", confidence := 1 }

/-- C8 amended: a domain error raised by the sizing step does NOT
propagate: when the gates pass, the strategy proposes a non-HOLD decision
that clears the confidence gate, and the decision's confidence lies
outside the open interval (0,1) (so `calculateKellyCriterion` throws),
`processMarketData` catches the error, writes an ERROR audit entry, and
returns `null`. -/
theorem processMarketData_catches_domain_error (a : BaseAgent)
    (strategy : MarketData → Prediction → Option TradeDecision)
    (md : MarketData) (pred : Prediction) (now : Int) (d : TradeDecision)
    (hrun : a.isRunning = true) (hen : a.config.tradingEnabled = true)
    (hdd : ((a.drawdownProtector.updateValue now a.portfolio.totalValue).1).canTrade = true)
    (hor : (a.oracleMonitor.checkHealth).1 = true)
    (hmc : (a.whaleDetector.analyzeOrder (a.probeOrder md now) md.liquidity now).1 = none)
    (hdec : strategy md pred = some d)
    (hhold : ¬(d.action = TradeAction.HOLD))
    (hconf : ¬(d.confidence < a.config.minConfidenceThreshold))
    (hbad : d.confidence ≤ 0 ∨ 1 ≤ d.confidence) :
    ((a.processMarketData strategy md pred now).1 = none) ∧
      ((a.processMarketData strategy md pred now).2.2 = [evtError]) := by
  have hkelly : calculateKellyCriterion
      { bankroll := a.portfolio.totalValue, winProbability := d.confidence
        winLoss := 1.5, kellyFraction := some a.config.kellyFraction
        maxPositionPercent := some a.config.maxPositionPercent } =
      .error errWinProbability := by
    simp only [calculateKellyCriterion]
    rw [if_pos hbad]
  have hmc2 := hmc
  simp only [BaseAgent.probeOrder] at hmc2
  constructor <;>
  · simp only [BaseAgent.processMarketData, BaseAgent.checkForManipulation,
      BaseAgent.probeOrder, BaseAgent.validateWithRiskManagement, hrun, hen, hdd,
      hdec, hmc2, hkelly, Bool.not_true, Bool.or_self, Bool.false_or, if_false, hor]
    simp [hhold, hconf, hkelly]

/-- Helper: on `testMarketData` at time `0`, `testAgent` passes the
drawdown gate, the oracle-health gate and the manipulation gate. -/
theorem testAgent_gates :
    (((testAgent.drawdownProtector.updateValue 0 testAgent.portfolio.totalValue).1).canTrade = true) ∧
      ((testAgent.oracleMonitor.checkHealth).1 = true) ∧
      ((testAgent.whaleDetector.analyzeOrder
          (testAgent.probeOrder testMarketData 0) testMarketData.liquidity 0).1 = none) := by
  refine ⟨?_, ?_, ?_⟩
  · norm_num [testAgent, ddTestConfig, mkDrawdownProtector, DrawdownProtector.updateValue,
      DrawdownProtector.evaluateLimits, DrawdownState.calculateDrawdown,
      DrawdownState.calculateDailyDrawdown, triggerCooldown]
    decide
  · have hc : assocGet testOracle.sourceStates srcChainlink =
        some (healthySource srcChainlink) := by
      simp [testOracle, assocGet, srcChainlink, srcUniswap, srcBinance]
    have hu : assocGet testOracle.sourceStates srcUniswap =
        some (healthySource srcUniswap) := by
      simp [testOracle, assocGet, srcChainlink, srcUniswap, srcBinance]
    have hb : assocGet testOracle.sourceStates srcBinance =
        some (healthySource srcBinance) := by
      simp [testOracle, assocGet, srcChainlink, srcUniswap, srcBinance]
    have hsrc : testAgent.oracleMonitor = testOracle := rfl
    rw [hsrc, OracleMonitor.checkHealth]
    simp only [testOracle, healthySource] at hc hu hb ⊢
    norm_num [hc, hu, hb]
  · norm_num [testAgent, testMarketData, mkWhaleDetector, BaseAgent.probeOrder,
      WhaleDetector.analyzeOrder, WhaleDetector.calculatePriceImpact,
      WhaleDetector.storeOrder, assocGet, assocGetD, assocSet, List.find?, Int.tdiv]

/-- C8 counterexample: with every gate passing and a BUY decision of
confidence exactly `1.0`, the sizing step throws the domain error, yet
`processMarketData` returns `null` (no propagation): the call evaluates to
no-trade with a single ERROR audit event. -/
theorem processMarketData_error_swallowed_concrete :
    ((testAgent.processMarketData strategyFullConfidence testMarketData testPrediction 0).1 =
        none) ∧
      ((testAgent.processMarketData strategyFullConfidence testMarketData testPrediction
          0).2.2 = [evtError]) ∧
      (calculateKellyCriterion
          { bankroll := testAgent.portfolio.totalValue, winProbability := 1, winLoss := 1.5
            kellyFraction := some testAgent.config.kellyFraction
            maxPositionPercent := some testAgent.config.maxPositionPercent } =
        .error errWinProbability) := by
  have hdd := testAgent_gates.1
  have hor := testAgent_gates.2.1
  have hmc := testAgent_gates.2.2
  simp only [BaseAgent.probeOrder] at hmc
  have hact : ¬(TradeAction.BUY = TradeAction.HOLD) := by simp
  refine ⟨?_, ?_, ?_⟩
  · simp only [BaseAgent.processMarketData, BaseAgent.checkForManipulation,
      BaseAgent.probeOrder, BaseAgent.validateWithRiskManagement, strategyFullConfidence,
      hdd, hor, hmc]
    rw [if_neg hact]
    norm_num [testAgent, testConfig, calculateKellyCriterion]
  · simp only [BaseAgent.processMarketData, BaseAgent.checkForManipulation,
      BaseAgent.probeOrder, BaseAgent.validateWithRiskManagement, strategyFullConfidence,
      hdd, hor, hmc]
    rw [if_neg hact]
    norm_num [testAgent, testConfig, calculateKellyCriterion]
  · norm_num [calculateKellyCriterion]

/-- C8 witness: the amended theorem applied at the concrete scenario of
the counterexample (confidence exactly `1.0`). -/
theorem processMarketData_catches_domain_error_witness :
    ((testAgent.processMarketData strategyFullConfidence testMarketData testPrediction 0).1 =
        none) ∧
      ((testAgent.processMarketData strategyFullConfidence testMarketData testPrediction
          0).2.2 = [evtError]) :=
  processMarketData_catches_domain_error testAgent strategyFullConfidence testMarketData
    testPrediction 0
    { action := .BUY, amount := 0, marketId := "M", reason := "buy", confidence := 1 }
    rfl rfl testAgent_gates.1 testAgent_gates.2.1 testAgent_gates.2.2 rfl
    (by decide) (by norm_num [testAgent, testConfig]) (Or.inr (by norm_num))

/-- C1 counterexample: with the agent running, trading enabled, and every
gate passing (drawdown, oracle health, manipulation), a strategy that
proposes HOLD makes `processMarketData` abort (return `null`) with ZERO
audit entries written — this abort is not recorded in the audit ledger. -/
theorem processMarketData_hold_abort_unlogged :
    ((testAgent.processMarketData strategyHold testMarketData testPrediction 0).1 = none) ∧
      ((testAgent.processMarketData strategyHold testMarketData testPrediction 0).2.2 = []) ∧
      testAgent.isRunning = true ∧ testAgent.config.tradingEnabled = true ∧
      (((testAgent.drawdownProtector.updateValue 0 testAgent.portfolio.totalValue).1).canTrade =
        true) ∧
      ((testAgent.oracleMonitor.checkHealth).1 = true) := by
  have hdd := testAgent_gates.1
  have hor := testAgent_gates.2.1
  have hmc := testAgent_gates.2.2
  simp only [BaseAgent.probeOrder] at hmc
  refine ⟨?_, ?_, rfl, rfl, testAgent_gates.1, testAgent_gates.2.1⟩ <;>
  · simp only [BaseAgent.processMarketData, BaseAgent.checkForManipulation,
      BaseAgent.probeOrder, strategyHold, hdd, hor, hmc]
    norm_num [testAgent, testConfig]

/-- Statement helper mirroring the blocking branch of
`checkForManipulation`: an analysis outcome blocks the trade exactly when
it is an alert of CRITICAL severity. -/
def blocksTrade : Option WhaleAlert → Bool
  | some al => al.severity == Severity.CRITICAL
  | none => false

/-- C1 amended: audit coverage of `processMarketData` while running with
trading enabled. A drawdown halt logs DRAWDOWN_HALT; an oracle abort logs
ORACLE_UNHEALTHY; a manipulation block logs SECURITY_ALERT; a
low-confidence rejection logs LOW_CONFIDENCE; every approval logs
TRADE_DECISION — but the two remaining aborts are silent: a HOLD (or
absent) strategy decision, and a non-positive computed position size, both
return `null` with NO audit entry written. -/
theorem processMarketData_audit_coverage (a : BaseAgent)
    (strategy : MarketData → Prediction → Option TradeDecision)
    (md : MarketData) (pred : Prediction) (now : Int)
    (hrun : a.isRunning = true) (hen : a.config.tradingEnabled = true) :
    ((((a.drawdownProtector.updateValue now a.portfolio.totalValue).1).canTrade = false) →
        (a.processMarketData strategy md pred now).2.2 = [evtDrawdownHalt] ∧
        (a.processMarketData strategy md pred now).1 = none) ∧
    ((((a.drawdownProtector.updateValue now a.portfolio.totalValue).1).canTrade = true) →
      ((a.oracleMonitor.checkHealth).1 = false) →
        (a.processMarketData strategy md pred now).2.2 = [evtOracleUnhealthy] ∧
        (a.processMarketData strategy md pred now).1 = none) ∧
    ((((a.drawdownProtector.updateValue now a.portfolio.totalValue).1).canTrade = true) →
      ((a.oracleMonitor.checkHealth).1 = true) →
      (blocksTrade ((a.whaleDetector.analyzeOrder (a.probeOrder md now)
          md.liquidity now).1) = true) →
        (a.processMarketData strategy md pred now).2.2 = [evtSecurityAlert] ∧
        (a.processMarketData strategy md pred now).1 = none) ∧
    ((((a.drawdownProtector.updateValue now a.portfolio.totalValue).1).canTrade = true) →
      ((a.oracleMonitor.checkHealth).1 = true) →
      (blocksTrade ((a.whaleDetector.analyzeOrder (a.probeOrder md now)
          md.liquidity now).1) = false) →
      (strategy md pred = none) →
        (a.processMarketData strategy md pred now).2.2 = [] ∧
        (a.processMarketData strategy md pred now).1 = none) ∧
    (∀ d : TradeDecision,
      (((a.drawdownProtector.updateValue now a.portfolio.totalValue).1).canTrade = true) →
      ((a.oracleMonitor.checkHealth).1 = true) →
      (blocksTrade ((a.whaleDetector.analyzeOrder (a.probeOrder md now)
          md.liquidity now).1) = false) →
      (strategy md pred = some d) → (d.action = TradeAction.HOLD) →
        (a.processMarketData strategy md pred now).2.2 = [] ∧
        (a.processMarketData strategy md pred now).1 = none) ∧
    (∀ d : TradeDecision,
      (((a.drawdownProtector.updateValue now a.portfolio.totalValue).1).canTrade = true) →
      ((a.oracleMonitor.checkHealth).1 = true) →
      (blocksTrade ((a.whaleDetector.analyzeOrder (a.probeOrder md now)
          md.liquidity now).1) = false) →
      (strategy md pred = some d) → ¬(d.action = TradeAction.HOLD) →
      (d.confidence < a.config.minConfidenceThreshold) →
        (a.processMarketData strategy md pred now).2.2 = [evtLowConfidence] ∧
        (a.processMarketData strategy md pred now).1 = none) ∧
    (∀ (d : TradeDecision) (k : Int),
      (((a.drawdownProtector.updateValue now a.portfolio.totalValue).1).canTrade = true) →
      ((a.oracleMonitor.checkHealth).1 = true) →
      (blocksTrade ((a.whaleDetector.analyzeOrder (a.probeOrder md now)
          md.liquidity now).1) = false) →
      (strategy md pred = some d) → ¬(d.action = TradeAction.HOLD) →
      ¬(d.confidence < a.config.minConfidenceThreshold) →
      (calculateKellyCriterion
          { bankroll := a.portfolio.totalValue, winProbability := d.confidence
            winLoss := 1.5, kellyFraction := some a.config.kellyFraction
            maxPositionPercent := some a.config.maxPositionPercent } = .ok k) →
      ((if k < (a.portfolio.totalValue *
            ⌊a.config.maxPositionPercent * 10000⌋).tdiv 10000 then k
        else (a.portfolio.totalValue *
            ⌊a.config.maxPositionPercent * 10000⌋).tdiv 10000) ≤ 0) →
        (a.processMarketData strategy md pred now).2.2 = [] ∧
        (a.processMarketData strategy md pred now).1 = none) ∧
    (∀ d : TradeDecision,
      ((a.processMarketData strategy md pred now).1 = some d) →
        evtTradeDecision ∈ (a.processMarketData strategy md pred now).2.2) := by
  refine ⟨?_, ?_, ?_, ?_, ?_, ?_, ?_, ?_⟩
  · intro hdd
    constructor <;>
      simp [BaseAgent.processMarketData, hrun, hen, hdd]
  · intro hdd hor
    constructor <;>
      simp [BaseAgent.processMarketData, hrun, hen, hdd, hor]
  · intro hdd hor hb
    rcases hA : (a.whaleDetector.analyzeOrder (a.probeOrder md now) md.liquidity now).1 with _ | al
    · rw [hA] at hb
      simp [blocksTrade] at hb
    · rw [hA] at hb
      simp only [blocksTrade, beq_iff_eq] at hb
      simp only [BaseAgent.probeOrder] at hA
      constructor <;>
        simp [BaseAgent.processMarketData, BaseAgent.checkForManipulation,
          BaseAgent.probeOrder, hrun, hen, hdd, hor, hA, hb]
  · intro hdd hor hb hdec
    rcases hA : (a.whaleDetector.analyzeOrder (a.probeOrder md now) md.liquidity now).1 with _ | al
    · simp only [BaseAgent.probeOrder] at hA
      constructor <;>
        simp [BaseAgent.processMarketData, BaseAgent.checkForManipulation,
          BaseAgent.probeOrder, hrun, hen, hdd, hor, hA, hdec]
    · rw [hA] at hb
      simp only [blocksTrade, beq_eq_false_iff_ne, ne_eq] at hb
      simp only [BaseAgent.probeOrder] at hA
      constructor <;>
        simp [BaseAgent.processMarketData, BaseAgent.checkForManipulation,
          BaseAgent.probeOrder, hrun, hen, hdd, hor, hA, hb, hdec]
  · intro d hdd hor hb hdec hH
    rcases hA : (a.whaleDetector.analyzeOrder (a.probeOrder md now) md.liquidity now).1 with _ | al
    · simp only [BaseAgent.probeOrder] at hA
      constructor <;>
        simp [BaseAgent.processMarketData, BaseAgent.checkForManipulation,
          BaseAgent.probeOrder, hrun, hen, hdd, hor, hA, hdec, hH]
    · rw [hA] at hb
      simp only [blocksTrade, beq_eq_false_iff_ne, ne_eq] at hb
      simp only [BaseAgent.probeOrder] at hA
      constructor <;>
        simp [BaseAgent.processMarketData, BaseAgent.checkForManipulation,
          BaseAgent.probeOrder, hrun, hen, hdd, hor, hA, hb, hdec, hH]
  · intro d hdd hor hb hdec hH hconf
    rcases hA : (a.whaleDetector.analyzeOrder (a.probeOrder md now) md.liquidity now).1 with _ | al
    · simp only [BaseAgent.probeOrder] at hA
      constructor <;>
        simp [BaseAgent.processMarketData, BaseAgent.checkForManipulation,
          BaseAgent.probeOrder, BaseAgent.validateWithRiskManagement, hrun, hen, hdd,
          hor, hA, hdec, hH, hconf]
    · rw [hA] at hb
      simp only [blocksTrade, beq_eq_false_iff_ne, ne_eq] at hb
      simp only [BaseAgent.probeOrder] at hA
      constructor <;>
        simp [BaseAgent.processMarketData, BaseAgent.checkForManipulation,
          BaseAgent.probeOrder, BaseAgent.validateWithRiskManagement, hrun, hen, hdd,
          hor, hA, hb, hdec, hH, hconf]
  · intro d k hdd hor hb hdec hH hconf hk hsize
    rcases hA : (a.whaleDetector.analyzeOrder (a.probeOrder md now) md.liquidity now).1 with _ | al
    · simp only [BaseAgent.probeOrder] at hA
      constructor <;>
        simp [BaseAgent.processMarketData, BaseAgent.checkForManipulation,
          BaseAgent.probeOrder, BaseAgent.validateWithRiskManagement, hrun, hen, hdd,
          hor, hA, hdec, hH, hconf, hk, hsize]
    · rw [hA] at hb
      simp only [blocksTrade, beq_eq_false_iff_ne, ne_eq] at hb
      simp only [BaseAgent.probeOrder] at hA
      constructor <;>
        simp [BaseAgent.processMarketData, BaseAgent.checkForManipulation,
          BaseAgent.probeOrder, BaseAgent.validateWithRiskManagement, hrun, hen, hdd,
          hor, hA, hb, hdec, hH, hconf, hk, hsize]
  · intro d hres
    by_cases hdd :
        ((a.drawdownProtector.updateValue now a.portfolio.totalValue).1).canTrade = true
    case neg =>
      rw [Bool.not_eq_true] at hdd
      simp [BaseAgent.processMarketData, hrun, hen, hdd] at hres
    case pos =>
    by_cases hor : (a.oracleMonitor.checkHealth).1 = true
    case neg =>
      rw [Bool.not_eq_true] at hor
      simp [BaseAgent.processMarketData, hrun, hen, hdd, hor] at hres
    case pos =>
    rcases hA : (a.whaleDetector.analyzeOrder (a.probeOrder md now) md.liquidity now).1
      with _ | al
    · simp only [BaseAgent.probeOrder] at hA
      rcases hS : strategy md pred with _ | dec
      · simp [BaseAgent.processMarketData, BaseAgent.checkForManipulation,
          BaseAgent.probeOrder, hrun, hen, hdd, hor, hA, hS] at hres
      · by_cases hH : dec.action = TradeAction.HOLD
        · simp [BaseAgent.processMarketData, BaseAgent.checkForManipulation,
            BaseAgent.probeOrder, hrun, hen, hdd, hor, hA, hS, hH] at hres
        · simp only [BaseAgent.processMarketData, BaseAgent.checkForManipulation,
            BaseAgent.probeOrder] at hres ⊢
          simp [hrun, hen, hdd, hor, hA, hS, hH] at hres ⊢
          split at hres
          · simp at hres
          · simp at hres
          · rename_i validated a3 vlogs heq
            simp
    · simp only [BaseAgent.probeOrder] at hA
      by_cases hcrit : al.severity = Severity.CRITICAL
      · simp [BaseAgent.processMarketData, BaseAgent.checkForManipulation,
          BaseAgent.probeOrder, hrun, hen, hdd, hor, hA, hcrit] at hres
      · rcases hS : strategy md pred with _ | dec
        · simp [BaseAgent.processMarketData, BaseAgent.checkForManipulation,
            BaseAgent.probeOrder, hrun, hen, hdd, hor, hA, hcrit, hS] at hres
        · by_cases hH : dec.action = TradeAction.HOLD
          · simp [BaseAgent.processMarketData, BaseAgent.checkForManipulation,
              BaseAgent.probeOrder, hrun, hen, hdd, hor, hA, hcrit, hS, hH] at hres
          · simp only [BaseAgent.processMarketData, BaseAgent.checkForManipulation,
              BaseAgent.probeOrder] at hres ⊢
            simp [hrun, hen, hdd, hor, hA, hcrit, hS, hH] at hres ⊢
            split at hres
            · simp at hres
            · simp at hres
            · rename_i validated a3 vlogs heq
              simp

/-- C1 witness: the audit-coverage theorem applied at the concrete running
agent with a HOLD strategy — the silent-abort conjunct instantiated. -/
theorem processMarketData_audit_coverage_witness :
    (testAgent.processMarketData strategyHold testMarketData testPrediction 0).2.2 = [] ∧
      (testAgent.processMarketData strategyHold testMarketData testPrediction 0).1 = none :=
  (processMarketData_audit_coverage testAgent strategyHold testMarketData testPrediction 0
      rfl rfl).2.2.2.2.1
    { action := .HOLD, amount := 0, marketId := "M", reason := "hold", confidence := 0.9 }
    testAgent_gates.1 testAgent_gates.2.1
    (by rw [testAgent_gates.2.2]; rfl) rfl rfl
